import Mathlib

/-!
Verification of `svg-dump` (src/main.rs).

A shallow embedding of the `svg-dump` command-line tool, which reads the
`SVG ` table of an OpenType font and either prints a SHA-256 digest line per
document record (Mode A, no glyph argument) or dumps document text (Mode B,
glyph id or `all`).

Modelling conventions:
* Bytes are `Nat` values `< 256`; byte buffers are `List Nat`.
* A Rust `String` is represented by its UTF-8 bytes (`List Nat`); printed
  lines are Lean `String`s.
* Fallible operations return `Except ErrKind`; the `.unwrap()` call on the
  SVG-table parse in `main.rs` is modelled by a distinct `RunResult.crash`
  outcome (a Rust panic, which bypasses the `Error:` reporting in `main`).
* External library calls are embedded by their documented semantics:
  SHA-256 (the `sha2` crate) is implemented in full below; gzip
  decompression (`flate2::read::GzDecoder`) is a parameter `gunzip` of the
  functions that use it, since no claim depends on the deflate algorithm
  itself; `String::from_utf8` is implemented as the standard UTF-8 validity
  check returning the same bytes.
-/

set_option maxRecDepth 1000000

namespace SvgDump

/-! SHA-256 (semantics of the `sha2` crate's `Sha256`, per FIPS 180-4) -/

/-- One 32-bit machine word, kept as a `Nat` reduced modulo `2^32`. -/
def u32 (n : Nat) : Nat := n % 4294967296

/-- Wrapping 32-bit addition. -/
def add32 (a b : Nat) : Nat := (a + b) % 4294967296

/-- Right rotation of a 32-bit word by `n` bits. -/
def rotr (n x : Nat) : Nat := u32 ((x >>> n) ||| (x <<< (32 - n)))

/-- Bitwise complement within 32 bits. -/
def not32 (x : Nat) : Nat := 4294967295 ^^^ x

/-- The SHA-256 `Ch` function. -/
def ch (x y z : Nat) : Nat := (x &&& y) ^^^ (not32 x &&& z)

/-- The SHA-256 `Maj` function. -/
def maj (x y z : Nat) : Nat := (x &&& y) ^^^ (x &&& z) ^^^ (y &&& z)

/-- The SHA-256 `Σ0` function. -/
def bigSigma0 (x : Nat) : Nat := rotr 2 x ^^^ rotr 13 x ^^^ rotr 22 x

/-- The SHA-256 `Σ1` function. -/
def bigSigma1 (x : Nat) : Nat := rotr 6 x ^^^ rotr 11 x ^^^ rotr 25 x

/-- The SHA-256 `σ0` function. -/
def smallSigma0 (x : Nat) : Nat := rotr 7 x ^^^ rotr 18 x ^^^ (x >>> 3)

/-- The SHA-256 `σ1` function. -/
def smallSigma1 (x : Nat) : Nat := rotr 17 x ^^^ rotr 19 x ^^^ (x >>> 10)

/-- The 64 SHA-256 round constants of FIPS 180-4, written in decimal. -/
def sha256K : List Nat :=
  [1116352408, 1899447441, 3049323471, 3921009573, 961987163, 1508970993,
   2453635748, 2870763221, 3624381080, 310598401, 607225278, 1426881987,
   1925078388, 2162078206, 2614888103, 3248222580, 3835390401, 4022224774,
   264347078, 604807628, 770255983, 1249150122, 1555081692, 1996064986,
   2554220882, 2821834349, 2952996808, 3210313671, 3336571891, 3584528711,
   113926993, 338241895, 666307205, 773529912, 1294757372, 1396182291,
   1695183700, 1986661051, 2177026350, 2456956037, 2730485921, 2820302411,
   3259730800, 3345764771, 3516065817, 3600352804, 4094571909, 275423344,
   430227734, 506948616, 659060556, 883997877, 958139571, 1322822218,
   1537002063, 1747873779, 1955562222, 2024104815, 2227730452, 2361852424,
   2428436474, 2756734187, 3204031479, 3329325298]

/-- The eight SHA-256 initial hash words of FIPS 180-4, written in decimal. -/
def sha256H0 : List Nat :=
  [1779033703, 3144134277, 1013904242, 2773480762,
   1359893119, 2600822924, 528734635, 1541459225]

/-- Big-endian 8-byte encoding of a natural number (the length field of the padding). -/
def be64 (n : Nat) : List Nat := (List.range 8).map fun i => (n >>> (8 * (7 - i))) % 256

/-- SHA-256 message padding: append `0x80`, zeros, and the 64-bit bit length. -/
def padMessage (msg : List Nat) : List Nat :=
  let len := msg.length
  let zeros := (119 - len % 64) % 64
  msg ++ 0x80 :: List.replicate zeros 0 ++ be64 (8 * len)

/-- Group bytes into big-endian 32-bit words. -/
def bytesToWords : List Nat → List Nat
  | a :: b :: c :: d :: rest => (((a * 256 + b) * 256 + c) * 256 + d) :: bytesToWords rest
  | _ => []

/-- Split a word list into blocks of 16 words (the fuel bounds the recursion
so that the definition reduces structurally). -/
def chunkWordsAux : Nat → List Nat → List (List Nat)
  | 0, _ => []
  | _ + 1, [] => []
  | n + 1, w :: ws => (w :: ws.take 15) :: chunkWordsAux n (ws.drop 15)

/-- Split a word list into blocks of 16 words. -/
def chunkWords (ws : List Nat) : List (List Nat) := chunkWordsAux ws.length ws

/-- Extend a 16-word block to the 64-word message schedule. -/
def buildSchedule (block : List Nat) : List Nat :=
  (List.range 48).foldl
    (fun w _ =>
      let t := w.length
      let wt := add32 (add32 (smallSigma1 (w.getD (t - 2) 0)) (w.getD (t - 7) 0))
        (add32 (smallSigma0 (w.getD (t - 15) 0)) (w.getD (t - 16) 0))
      w ++ [wt])
    block

/-- One SHA-256 compression round on the eight-word working state. -/
def sha256Round (w : List Nat) (st : List Nat) (t : Nat) : List Nat :=
  match st with
  | [a, b, c, d, e, f, g, h] =>
    let t1 := add32 h (add32 (bigSigma1 e) (add32 (ch e f g) (add32 (sha256K.getD t 0) (w.getD t 0))))
    let t2 := add32 (bigSigma0 a) (maj a b c)
    [add32 t1 t2, a, b, c, add32 d t1, e, f, g]
  | other => other

/-- Compress one 16-word block into the running hash state. -/
def compressBlock (hs : List Nat) (block : List Nat) : List Nat :=
  let w := buildSchedule block
  let final := (List.range 64).foldl (sha256Round w) hs
  List.zipWith add32 hs final

/-- SHA-256 of a byte sequence, as the list of its 32 digest bytes. -/
def sha256 (msg : List Nat) : List Nat :=
  let ws := bytesToWords (padMessage msg)
  let hs := (chunkWords ws).foldl compressBlock sha256H0
  hs.flatMap fun wd => [(wd >>> 24) % 256, (wd >>> 16) % 256, (wd >>> 8) % 256, wd % 256]

/-! Data model (src/main.rs and the allsorts `SvgTable` it consumes) -/

/-- One entry of the SVG table: a closed glyph-id range and the raw (possibly
gzip-compressed) document bytes it points at. Mirrors allsorts'
`SVGDocumentRecord` as used by `main.rs` (`start_glyph_id`, `end_glyph_id`,
`svg_document`). -/
structure DocumentRecord where
  start_glyph_id : Nat
  end_glyph_id : Nat
  svg_document : List Nat
deriving DecidableEq, Repr

/-- The error taxonomy of spec §7; `main.rs` funnels each of these into an
`io::Error` via `to_io_error` and prints it as a single `Error:` line. -/
inductive ErrKind where
  | input
  | ioErr
  | containerParse
  | tableParse
  | decompress
  | encoding
deriving DecidableEq, Repr

/-! Digest hex rendering (src/main.rs lines 101-130) -/

/-- Function `hexify` from `main.rs`: folds over the digest bytes appending
`format!("{:x}", byte)` for each — the minimal lowercase hex digits of the
byte, with no zero padding (`Nat.toDigits 16` renders exactly that). -/
def hexify (bytes : List Nat) : String :=
  bytes.foldl (fun s byte => s ++ String.mk (Nat.toDigits 16 byte)) ""

/-- The encoding the spec describes for the digest field: every byte as
exactly two lowercase hex digits (what `format!("{:02x}", byte)` would
print). Stated from the spec's words, for comparison with `hexify`. -/
def specHexDigest (bytes : List Nat) : String :=
  bytes.foldl (fun s byte => s ++ String.mk [Nat.digitChar (byte / 16 % 16), Nat.digitChar (byte % 16)]) ""

/-- The line `println!("{} → {}: {}", start, end, hex)` printed per record in
Mode A. -/
def hashLine (record : DocumentRecord) (digest : List Nat) : String :=
  toString record.start_glyph_id ++ " → " ++ toString record.end_glyph_id ++ ": " ++ hexify digest

/-! UTF-8 validation (`String::from_utf8` of the Rust standard library) -/

/-- A UTF-8 continuation byte, `0x80..=0xBF`. -/
def isUtf8Cont (b : Nat) : Bool := decide (0x80 ≤ b ∧ b ≤ 0xBF)

/-- Strict UTF-8 validity of a byte sequence, as checked by Rust's
`String::from_utf8`: ASCII, 2/3/4-byte sequences with the shortest-form and
surrogate restrictions (lead bytes `C2..=DF`, `E0..=EF`, `F0..=F4`, with the
narrowed second-byte ranges after `E0`, `ED`, `F0` and `F4`). -/
def isValidUtf8 : List Nat → Bool
  | [] => true
  | b :: rest =>
    if b < 0x80 then isValidUtf8 rest
    else if b < 0xC2 then false
    else if b < 0xE0 then
      match rest with
      | b1 :: rest2 => isUtf8Cont b1 && isValidUtf8 rest2
      | [] => false
    else if b < 0xF0 then
      match rest with
      | b1 :: b2 :: rest3 =>
        (if b = 0xE0 then decide (0xA0 ≤ b1 ∧ b1 ≤ 0xBF)
         else if b = 0xED then decide (0x80 ≤ b1 ∧ b1 ≤ 0x9F)
         else isUtf8Cont b1) && isUtf8Cont b2 && isValidUtf8 rest3
      | _ => false
    else if b < 0xF5 then
      match rest with
      | b1 :: b2 :: b3 :: rest4 =>
        (if b = 0xF0 then decide (0x90 ≤ b1 ∧ b1 ≤ 0xBF)
         else if b = 0xF4 then decide (0x80 ≤ b1 ∧ b1 ≤ 0x8F)
         else isUtf8Cont b1) && isUtf8Cont b2 && isUtf8Cont b3 && isValidUtf8 rest4
      | _ => false
    else false

/-- Model of `String::from_utf8(doc)`: succeeds exactly on valid UTF-8 and returns the
very same bytes (a Rust `String` is represented here by its UTF-8 bytes);
invalid encoding is the `Encoding` error — never a lossy substitution. -/
def string_from_utf8 (bytes : List Nat) : Except ErrKind (List Nat) :=
  if isValidUtf8 bytes then Except.ok bytes else Except.error ErrKind.encoding

/-! The Document Materializer (`expand_document`, src/main.rs lines 78-89) -/

/-- Constant `GZIP_HEADER` from `main.rs`: gzip magic plus the deflate method byte. -/
def GZIP_HEADER : List Nat := [0x1F, 0x8B, 0x08]

/-- Function `expand_document` from `main.rs`. `gunzip` stands for the external
`GzDecoder::read_to_end` call (gzip decompression of the whole stream,
header included); it is a parameter because no claim depends on the deflate
algorithm itself, only on when it is invoked. -/
def expand_document (gunzip : List Nat → Except ErrKind (List Nat)) (data : List Nat) :
    Except ErrKind (List Nat) :=
  match (if GZIP_HEADER.isPrefixOf data then gunzip data else Except.ok data) with
  | Except.error e => Except.error e
  | Except.ok doc => string_from_utf8 doc

/-! Glyph-id argument (src/main.rs lines 39-48) -/

/-- Enum `GlyphToDump` from `main.rs`. -/
inductive GlyphToDump where
  | Id (n : Nat)
  | All
deriving DecidableEq, Repr

/-- Rust's `str::parse::<u16>` (`u16::from_str`): an optional leading `+`,
then one or more ASCII digits, value at most `65535`; anything else fails. -/
def parseU16 (s : String) : Option Nat :=
  let cs := match s.data with
    | '+' :: rest => rest
    | other => other
  if cs.isEmpty then none
  else if cs.all Char.isDigit then
    let n := cs.foldl (fun a c => a * 10 + (c.toNat - 48)) 0
    if n < 65536 then some n else none
  else none

/-- The `match glyph_id { "all" => All, _ => Id(parse()?) }` at the top of
`dump_glyph`. -/
def parseGlyphArg (s : String) : Except ErrKind GlyphToDump :=
  if s = "all" then Except.ok GlyphToDump.All
  else
    match parseU16 s with
    | some n => Except.ok (GlyphToDump.Id n)
    | none => Except.error ErrKind.input

/-! The SVG table parser (external collaborator) -/

/-- Big-endian 16-bit read at `off`, `none` past the end of the buffer. -/
def readU16 (bs : List Nat) (off : Nat) : Option Nat :=
  match bs.get? off, bs.get? (off + 1) with
  | some a, some b => some (a * 256 + b)
  | _, _ => none

/-- Big-endian 32-bit read at `off`, `none` past the end of the buffer. -/
def readU32 (bs : List Nat) (off : Nat) : Option Nat :=
  match readU16 bs off, readU16 bs (off + 2) with
  | some hi, some lo => some (hi * 65536 + lo)
  | _, _ => none

/-- Modelled from the spec: one record of the SVG document list, read by the
external allsorts parser during iteration (`iter_res`). The record fields sit
at `listBase + 2 + 12 * i`; the document offset/length are relative to the
document-list base, and a document range reaching past the table buffer is a
`tableParse` error for that record (spec §4.2, §6). -/
def parseDocRecord (bs : List Nat) (listBase : Nat) (i : Nat) : Except ErrKind DocumentRecord :=
  let base := listBase + 2 + 12 * i
  match readU16 bs base, readU16 bs (base + 2), readU32 bs (base + 4), readU32 bs (base + 8) with
  | some s, some e, some dOff, some dLen =>
    if listBase + dOff + dLen ≤ bs.length then
      Except.ok ⟨s, e, (bs.drop (listBase + dOff)).take dLen⟩
    else Except.error ErrKind.tableParse
  | _, _, _, _ => Except.error ErrKind.tableParse

/-- Modelled from the spec: the external allsorts `SvgTable` parser that
`main.rs` invokes as `ReadScope::new(&svg_data).read::<SvgTable>()` and then
`.unwrap()`s. Per spec §4.2/§6 it eagerly reads the header (version u16,
document-list offset u32, reserved u32), then at the declared offset the
entry count u16 and the record array extent; failure of this eager parse is
the table-level error the callers unwrap. The per-record document ranges are
validated lazily during iteration, so those failures surface as `Except`
items of the returned list (matching `iter_res` yielding `Result`s). -/
def read_svg_table (bs : List Nat) : Except ErrKind (List (Except ErrKind DocumentRecord)) :=
  match readU16 bs 0, readU32 bs 2, readU32 bs 6 with
  | some _version, some off, some _reserved =>
    match readU16 bs off with
    | some n =>
      if off + 2 + 12 * n ≤ bs.length then
        Except.ok ((List.range n).map (parseDocRecord bs off))
      else Except.error ErrKind.tableParse
    | none => Except.error ErrKind.tableParse
  | _, _, _ => Except.error ErrKind.tableParse

/-! Mode B: the record loop of `dump_glyph` (src/main.rs lines 59-75) -/

/-- The `for record in svg.document_records.iter_res()` loop of `dump_glyph`:
`All` materializes and prints every record; `Id id` skips records whose
closed interval misses `id`, and on the first hit prints the document and
returns `Ok(())`. A record-iteration error aborts via `map_err(..)?`. The
returned list holds the printed documents in print order. -/
def dumpRecords (gunzip : List Nat → Except ErrKind (List Nat)) (glyph_id : GlyphToDump) :
    List (Except ErrKind DocumentRecord) → Except ErrKind (List (List Nat))
  | [] => Except.ok []
  | r? :: rest =>
    match r? with
    | Except.error e => Except.error e
    | Except.ok record =>
      match glyph_id with
      | GlyphToDump.All =>
        match expand_document gunzip record.svg_document with
        | Except.error e => Except.error e
        | Except.ok doc =>
          match dumpRecords gunzip GlyphToDump.All rest with
          | Except.error e => Except.error e
          | Except.ok out => Except.ok (doc :: out)
      | GlyphToDump.Id id =>
        if record.start_glyph_id ≤ id ∧ id ≤ record.end_glyph_id then
          match expand_document gunzip record.svg_document with
          | Except.error e => Except.error e
          | Except.ok doc => Except.ok [doc]
        else dumpRecords gunzip (GlyphToDump.Id id) rest

/-! Mode A: the record loop of `hashes` (src/main.rs lines 101-112) -/

/-- The loop of `hashes`: one `Sha256` hasher is created before the loop and
modelled by the bytes it has absorbed since its last reset (`absorbed`).
Per record: `hasher.update(record.svg_document)` appends the stored bytes,
`finalize_reset` digests everything absorbed and empties the hasher, and the
digest line is printed. The materializer is never involved. -/
def hashRecords : List (Except ErrKind DocumentRecord) → List Nat → Except ErrKind (List String)
  | [], _ => Except.ok []
  | r? :: rest, absorbed =>
    match r? with
    | Except.error e => Except.error e
    | Except.ok record =>
      let absorbed1 := absorbed ++ record.svg_document
      let digest := sha256 absorbed1
      match hashRecords rest [] with
      | Except.error e => Except.error e
      | Except.ok lines => Except.ok (hashLine record digest :: lines)

/-! The two entry points and the exit behaviour of `main` -/

/-- Outcome of one invocation: `ok` with the printed payload, `err` with the
error that `main` prints as `Error: <description>` before `exit(1)`, or
`crash` for a Rust panic (the `.unwrap()` on the SVG-table parse), which
aborts without the `Error:` line. -/
inductive RunResult (α : Type) where
  | ok (a : α)
  | err (e : ErrKind)
  | crash
deriving DecidableEq, Repr

/-- Function `dump_glyph` from `main.rs` (Mode B). The glyph argument is parsed first;
`font_file` stands for the `fs::read` result, `locate_svg` for the external
container steps (`FontFile` read, `table_provider`, `read_table_data`). The
SVG-table parse result is `.unwrap()`ed: its failure is a `crash`, not an
`err`. -/
def dump_glyph (gunzip : List Nat → Except ErrKind (List Nat))
    (locate_svg : List Nat → Except ErrKind (List Nat))
    (font_file : Except ErrKind (List Nat)) (glyph_arg : String) :
    RunResult (List (List Nat)) :=
  match parseGlyphArg glyph_arg with
  | Except.error e => RunResult.err e
  | Except.ok glyph_id =>
    match font_file with
    | Except.error e => RunResult.err e
    | Except.ok buffer =>
      match locate_svg buffer with
      | Except.error e => RunResult.err e
      | Except.ok svg_data =>
        match read_svg_table svg_data with
        | Except.error _ => RunResult.crash
        | Except.ok records =>
          match dumpRecords gunzip glyph_id records with
          | Except.error e => RunResult.err e
          | Except.ok out => RunResult.ok out

/-- Function `hashes` from `main.rs` (Mode A). Same pipeline as `dump_glyph` but with
no glyph argument and no materializer: the hasher starts empty and every
record is digested from its stored bytes. The SVG-table parse is likewise
`.unwrap()`ed. -/
def hashes (locate_svg : List Nat → Except ErrKind (List Nat))
    (font_file : Except ErrKind (List Nat)) : RunResult (List String) :=
  match font_file with
  | Except.error e => RunResult.err e
  | Except.ok buffer =>
    match locate_svg buffer with
    | Except.error e => RunResult.err e
    | Except.ok svg_data =>
      match read_svg_table svg_data with
      | Except.error _ => RunResult.crash
      | Except.ok records =>
        match hashRecords records [] with
        | Except.error e => RunResult.err e
        | Except.ok lines => RunResult.ok lines

/-- The process exit status: `Ok` exits 0, a reported error exits 1 (after
the `Error:` line), and a Rust panic aborts the process with status 101. -/
def exitCode {α : Type} : RunResult α → Nat
  | RunResult.ok _ => 0
  | RunResult.err _ => 1
  | RunResult.crash => 101

/-- Whether `main` prints an `Error: <description>` line for this outcome
(it does only on the `Err` branch — a panic prints a panic message instead). -/
def printsErrorLine {α : Type} : RunResult α → Bool
  | RunResult.err _ => true
  | _ => false

/-! Concrete fixtures used by witnesses and counterexamples -/

/-- A gzip decompressor stand-in that fails on every input, used to show
which code paths never invoke decompression. -/
def gunzipFail : List Nat → Except ErrKind (List Nat) := fun _ => Except.error ErrKind.decompress

/-- An SVG table whose header declares the document list at offset 100 of a
10-byte buffer: the eager table parse fails. -/
def badSvgTable : List Nat := [0, 0, 0, 0, 0, 100, 0, 0, 0, 0]

/-- A well-formed one-record SVG table: version 0, document list at offset
10, one entry `{start 10, end 12, offset 14, length 6}` whose document is
the 6 bytes of `<svg/>` (spec §8's scenario). -/
def goodSvgTable : List Nat :=
  [0, 0, 0, 0, 0, 10, 0, 0, 0, 0,
   0, 1,
   0, 10, 0, 12, 0, 0, 0, 14, 0, 0, 0, 6,
   60, 115, 118, 103, 47, 62]

/-- The record stored in `goodSvgTable`. -/
def goodRecord : DocumentRecord := ⟨10, 12, [60, 115, 118, 103, 47, 62]⟩

/-! Helper lemmas -/

/-- The gzip sniff condition, restated: `isPrefixOf` holds exactly when the
first three bytes of the data equal the magic sequence. -/
theorem gzip_isPrefixOf_iff (data : List Nat) :
    GZIP_HEADER.isPrefixOf data = true ↔ data.take 3 = GZIP_HEADER := by
  rw [List.isPrefixOf_iff_prefix, List.prefix_iff_eq_take]
  have hlen : GZIP_HEADER.length = 3 := rfl
  rw [hlen]
  exact eq_comm

/-- Records whose closed interval misses `id` are skipped by the `Id` loop. -/
theorem dumpRecords_id_skip (gunzip : List Nat → Except ErrKind (List Nat)) (id : Nat)
    (rs1 : List DocumentRecord) (rest : List (Except ErrKind DocumentRecord))
    (h : ∀ r ∈ rs1, ¬(r.start_glyph_id ≤ id ∧ id ≤ r.end_glyph_id)) :
    dumpRecords gunzip (GlyphToDump.Id id) (rs1.map Except.ok ++ rest) =
      dumpRecords gunzip (GlyphToDump.Id id) rest := by
  induction rs1 with
  | nil => rfl
  | cons r rs ih =>
    have hr := h r (List.mem_cons_self r rs)
    have htail : ∀ x ∈ rs, ¬(x.start_glyph_id ≤ id ∧ id ≤ x.end_glyph_id) :=
      fun x hx => h x (List.mem_cons_of_mem r hx)
    simp only [List.map_cons, List.cons_append, dumpRecords]
    rw [if_neg hr]
    exact ih htail

/-! Claim theorems -/

/-- Claim C3 (confirmed): for every byte slice given to the Document
Materializer, if its first three bytes equal `1F 8B 08` the result is the
gzip-decompressed bytes decoded as UTF-8; otherwise it is the input bytes
themselves decoded as UTF-8, and on success the output is identical to the
input bytes. -/
theorem expand_document_gzip_sniff (gunzip : List Nat → Except ErrKind (List Nat))
    (data : List Nat) :
    (data.take 3 = GZIP_HEADER →
      expand_document gunzip data = (gunzip data).bind string_from_utf8) ∧
    (data.take 3 ≠ GZIP_HEADER →
      expand_document gunzip data = string_from_utf8 data ∧
      ∀ out, expand_document gunzip data = Except.ok out → out = data) := by
  constructor
  · intro h
    have hp : GZIP_HEADER.isPrefixOf data = true := (gzip_isPrefixOf_iff data).mpr h
    have hexp : expand_document gunzip data =
        match gunzip data with
        | Except.error e => Except.error e
        | Except.ok doc => string_from_utf8 doc := by
      unfold expand_document
      rw [hp]
      rfl
    rw [hexp]
    cases gunzip data <;> rfl
  · intro h
    have hp : GZIP_HEADER.isPrefixOf data = false := by
      cases hcase : GZIP_HEADER.isPrefixOf data
      · rfl
      · exact absurd ((gzip_isPrefixOf_iff data).mp hcase) h
    have hexp : expand_document gunzip data = string_from_utf8 data := by
      unfold expand_document
      rw [hp]
      rfl
    refine ⟨hexp, fun out hout => ?_⟩
    rw [hexp] at hout
    unfold string_from_utf8 at hout
    by_cases hv : isValidUtf8 data = true
    · rw [if_pos hv] at hout
      injection hout with hde
      exact hde.symm
    · rw [if_neg hv] at hout
      cases hout

/-- Witness for C3: a gzip-sniffed input is routed through the decompressor
and its output UTF-8-decoded. -/
theorem expand_document_gzip_sniff_witness :
    expand_document (fun _ => Except.ok [104]) [31, 139, 8] = Except.ok [104] := by
  have h := (expand_document_gzip_sniff (fun _ => Except.ok [104]) [31, 139, 8]).1 rfl
  exact h.trans rfl

/-- Claim C4 (confirmed): in Mode B with a numeric glyph id, the loop prints
the first record whose closed interval contains the id and stops; records
after the first match — even ones whose parse would fail — are never
examined, and the output is exactly that one document. -/
theorem single_glyph_first_match_stops (gunzip : List Nat → Except ErrKind (List Nat))
    (id : Nat) (rs1 : List DocumentRecord) (r : DocumentRecord)
    (rs2 : List (Except ErrKind DocumentRecord)) (d : List Nat)
    (h1 : ∀ x ∈ rs1, ¬(x.start_glyph_id ≤ id ∧ id ≤ x.end_glyph_id))
    (h2 : r.start_glyph_id ≤ id ∧ id ≤ r.end_glyph_id)
    (h3 : expand_document gunzip r.svg_document = Except.ok d) :
    dumpRecords gunzip (GlyphToDump.Id id) (rs1.map Except.ok ++ Except.ok r :: rs2) =
      Except.ok [d] := by
  rw [dumpRecords_id_skip gunzip id rs1 _ h1]
  simp only [dumpRecords]
  rw [if_pos h2, h3]

/-- Witness for C4: glyph id 5 hits the second record; the third entry is an
iteration error yet the dump still succeeds with the one matched document. -/
theorem single_glyph_first_match_stops_witness :
    dumpRecords gunzipFail (GlyphToDump.Id 5)
      [Except.ok ⟨0, 1, [60]⟩, Except.ok ⟨4, 6, [60]⟩, Except.error ErrKind.tableParse] =
      Except.ok [[60]] :=
  single_glyph_first_match_stops gunzipFail 5 [⟨0, 1, [60]⟩] ⟨4, 6, [60]⟩
    [Except.error ErrKind.tableParse] [60] (by decide) (by decide) rfl

/-- Claim C5 (confirmed): in Mode A the hasher is reset between records
(`finalize_reset`), so starting from the empty hasher every record's digest
line carries the SHA-256 of that record's own stored bytes alone — record N's
digest does not depend on any other record. -/
theorem digest_reset_between_records (records : List DocumentRecord) :
    hashRecords (records.map Except.ok) [] =
      Except.ok (records.map fun r => hashLine r (sha256 r.svg_document)) := by
  induction records with
  | nil => rfl
  | cons r rest ih =>
    simp only [List.map_cons, hashRecords, List.nil_append, ih]

/-- Witness for C5 at a concrete single-record table. -/
theorem digest_reset_between_records_witness :
    hashRecords ([(⟨2, 7, [97, 98, 99]⟩ : DocumentRecord)].map Except.ok) [] =
      Except.ok ["2 → 7: ba7816bf8f1cfea414140de5dae2223b0361a396177a9cb410ff61f2015ad"] :=
  (digest_reset_between_records [⟨2, 7, [97, 98, 99]⟩]).trans rfl

/-- Claim C6 (confirmed): in Mode B with `all`, when every record
materializes, the loop prints exactly the materialized document of every
record, in table order, and the number of printed documents equals the
record count. -/
theorem all_mode_prints_each_record (gunzip : List Nat → Except ErrKind (List Nat))
    (records : List DocumentRecord) (docs : List (List Nat))
    (h : records.mapM (fun r => expand_document gunzip r.svg_document) = Except.ok docs) :
    dumpRecords gunzip GlyphToDump.All (records.map Except.ok) = Except.ok docs ∧
      docs.length = records.length := by
  induction records generalizing docs with
  | nil =>
    rw [List.mapM_nil] at h
    simp only [pure, Except.pure, Except.ok.injEq] at h
    subst h
    exact ⟨rfl, rfl⟩
  | cons r rest ih =>
    rw [List.mapM_cons] at h
    cases he : expand_document gunzip r.svg_document with
    | error e => rw [he] at h; simp [Bind.bind, Except.bind] at h
    | ok doc =>
      rw [he] at h
      cases hrest : rest.mapM (fun x => expand_document gunzip x.svg_document) with
      | error e => rw [hrest] at h; simp [Bind.bind, Except.bind, pure, Except.pure] at h
      | ok docs2 =>
        rw [hrest] at h
        simp only [Bind.bind, Except.bind, pure, Except.pure, Except.ok.injEq] at h
        obtain ⟨hd, hlen⟩ := ih docs2 hrest
        subst h
        constructor
        · simp only [List.map_cons, dumpRecords]
          rw [he, hd]
        · simp [hlen]

/-- Witness for C6: a two-record table dumps two documents in table order. -/
theorem all_mode_prints_each_record_witness :
    dumpRecords gunzipFail GlyphToDump.All
        (([⟨0, 1, [60]⟩, ⟨2, 3, [65]⟩] : List DocumentRecord).map Except.ok) =
      Except.ok [[60], [65]] ∧
      ([[60], [65]] : List (List Nat)).length =
        ([⟨0, 1, [60]⟩, ⟨2, 3, [65]⟩] : List DocumentRecord).length :=
  all_mode_prints_each_record gunzipFail [⟨0, 1, [60]⟩, ⟨2, 3, [65]⟩] [[60], [65]] rfl

/-- Claim C7 (confirmed): in Mode B with a numeric glyph id contained in no
record's closed interval, the run succeeds with no output and the exit
status is 0 — a non-matching id is not an error. -/
theorem unmatched_glyph_id_succeeds_empty (gunzip : List Nat → Except ErrKind (List Nat))
    (locate_svg : List Nat → Except ErrKind (List Nat)) (buffer svgBytes : List Nat)
    (records : List DocumentRecord) (id : Nat) (arg : String)
    (harg : parseGlyphArg arg = Except.ok (GlyphToDump.Id id))
    (hloc : locate_svg buffer = Except.ok svgBytes)
    (htab : read_svg_table svgBytes = Except.ok (records.map Except.ok))
    (hno : ∀ r ∈ records, ¬(r.start_glyph_id ≤ id ∧ id ≤ r.end_glyph_id)) :
    dump_glyph gunzip locate_svg (Except.ok buffer) arg = RunResult.ok [] ∧
      exitCode (dump_glyph gunzip locate_svg (Except.ok buffer) arg) = 0 := by
  have hloop : dumpRecords gunzip (GlyphToDump.Id id) (records.map Except.ok) =
      Except.ok [] := by
    have := dumpRecords_id_skip gunzip id records [] hno
    rw [List.append_nil] at this
    exact this
  have hrun : dump_glyph gunzip locate_svg (Except.ok buffer) arg = RunResult.ok [] := by
    simp only [dump_glyph, harg, hloc, htab, hloop]
  exact ⟨hrun, by rw [hrun]; rfl⟩

/-- Witness for C7: glyph id 5 misses the single record `[10, 12]` of the
concrete table; the run returns no documents with exit status 0. -/
theorem unmatched_glyph_id_succeeds_empty_witness :
    dump_glyph gunzipFail (fun _ => Except.ok goodSvgTable) (Except.ok []) "5" =
        RunResult.ok [] ∧
      exitCode (dump_glyph gunzipFail (fun _ => Except.ok goodSvgTable) (Except.ok []) "5") = 0 :=
  unmatched_glyph_id_succeeds_empty gunzipFail (fun _ => Except.ok goodSvgTable) []
    goodSvgTable [goodRecord] 5 "5" rfl rfl rfl (by decide)

/-- Claim C8 (confirmed): whenever the Document Materializer succeeds, the
produced string's bytes are exactly the materialized bytes (decompressed when
sniffed, raw otherwise) and those bytes are valid UTF-8; whenever the
materialized bytes are not valid UTF-8 the result is the Encoding error —
there is no lossy or placeholder substitution. -/
theorem from_utf8_strict_no_lossy (gunzip : List Nat → Except ErrKind (List Nat))
    (data : List Nat) :
    (∀ out, expand_document gunzip data = Except.ok out →
      isValidUtf8 out = true ∧
        (if GZIP_HEADER.isPrefixOf data then gunzip data else Except.ok data) =
          Except.ok out) ∧
    (∀ bs, (if GZIP_HEADER.isPrefixOf data then gunzip data else Except.ok data) =
        Except.ok bs → isValidUtf8 bs = false →
      expand_document gunzip data = Except.error ErrKind.encoding) := by
  constructor
  · intro out hout
    cases hm : (if GZIP_HEADER.isPrefixOf data then gunzip data else Except.ok data) with
    | error e =>
      have hexp : expand_document gunzip data = Except.error e := by
        unfold expand_document; rw [hm]
      rw [hexp] at hout
      cases hout
    | ok doc =>
      have hexp : expand_document gunzip data = string_from_utf8 doc := by
        unfold expand_document; rw [hm]
      rw [hexp] at hout
      unfold string_from_utf8 at hout
      by_cases hv : isValidUtf8 doc = true
      · rw [if_pos hv] at hout
        injection hout with hde
        subst hde
        exact ⟨hv, rfl⟩
      · rw [if_neg hv] at hout
        cases hout
  · intro bs hm hv
    have hexp : expand_document gunzip data = string_from_utf8 bs := by
      unfold expand_document; rw [hm]
    rw [hexp]
    simp [string_from_utf8, hv]

/-- Witness for C8: the single byte `0xFF` is not valid UTF-8, so the
materializer fails with the Encoding error. -/
theorem from_utf8_strict_no_lossy_witness :
    expand_document gunzipFail [255] = Except.error ErrKind.encoding :=
  (from_utf8_strict_no_lossy gunzipFail [255]).2 [255] rfl rfl

/-- Claim C9 (confirmed): in Mode B, an argument that is neither the literal
`all` nor a string Rust parses as a `u16` (a decimal integer in
`[0, 65535]`, optionally `+`-signed) fails with the input error regardless
of the font-file contents — the font is neither read nor parsed, since the
result is the same for every `font_file` and `locate_svg`. -/
theorem bad_glyph_arg_fails_before_font (gunzip : List Nat → Except ErrKind (List Nat))
    (locate_svg : List Nat → Except ErrKind (List Nat))
    (font_file : Except ErrKind (List Nat)) (arg : String)
    (h1 : arg ≠ "all") (h2 : parseU16 arg = none) :
    dump_glyph gunzip locate_svg font_file arg = RunResult.err ErrKind.input := by
  unfold dump_glyph parseGlyphArg
  rw [if_neg h1, h2]

/-- Witness for C9: the out-of-range argument `70000` fails before the font
is touched, even though the supplied font data is well-formed. -/
theorem bad_glyph_arg_fails_before_font_witness :
    dump_glyph gunzipFail (fun _ => Except.ok goodSvgTable) (Except.ok [1, 2, 3]) "70000" =
      RunResult.err ErrKind.input :=
  bad_glyph_arg_fails_before_font gunzipFail (fun _ => Except.ok goodSvgTable)
    (Except.ok [1, 2, 3]) "70000" (by decide) (by decide)

/-- Claim C1 (code bug): Mode A emits one line per record of the form
`<start> → <end>: <hex>` with the SHA-256 of the record's stored bytes, but
`hexify` renders each digest byte with `format!("{:x}", byte)` — no zero
padding — so digest bytes below `0x10` produce one hex digit instead of the
two the spec requires. For stored bytes `61 62 63` (`abc`), whose digest
contains `0x01`, `0x03` and `0x00`, the emitted digest field has 61
characters instead of 64 and differs from the spec's two-digit encoding. -/
theorem mode_a_digest_line_drops_leading_zeros :
    hashRecords [Except.ok ⟨0, 1, [97, 98, 99]⟩] [] =
      Except.ok ["0 → 1: ba7816bf8f1cfea414140de5dae2223b0361a396177a9cb410ff61f2015ad"] ∧
    specHexDigest (sha256 [97, 98, 99]) =
      "ba7816bf8f01cfea414140de5dae2223b00361a396177a9cb410ff61f20015ad" ∧
    hexify (sha256 [97, 98, 99]) ≠ specHexDigest (sha256 [97, 98, 99]) ∧
    (hexify (sha256 [97, 98, 99])).length = 61 := by
  refine ⟨rfl, rfl, ?_, rfl⟩
  decide

/-- Claim C2 (code bug): a malformed SVG table — here a header declaring the
document list at offset 100 of a 10-byte table — makes the table parse fail,
and both entry points `.unwrap()` that result: the process panics (exit
status 101, no `Error:` line) instead of reporting a TableParseError through
the `Error:` channel with exit status 1. -/
theorem malformed_svg_table_crashes_not_error_line :
    read_svg_table badSvgTable = Except.error ErrKind.tableParse ∧
    hashes (fun _ => Except.ok badSvgTable) (Except.ok []) = RunResult.crash ∧
    dump_glyph gunzipFail (fun _ => Except.ok badSvgTable) (Except.ok []) "all" =
      RunResult.crash ∧
    printsErrorLine (hashes (fun _ => Except.ok badSvgTable) (Except.ok [])) = false ∧
    exitCode (hashes (fun _ => Except.ok badSvgTable) (Except.ok [])) = 101 :=
  ⟨rfl, rfl, rfl, rfl, rfl⟩

/-- Claim C10 (confirmed): Mode A hashes the stored bytes directly and never
runs the Document Materializer: a record whose document is a corrupt gzip
stream (`1F 8B 08` alone) and one whose bytes are invalid UTF-8 (`FF`) both
still get digest lines in Mode A, while the materializer — hence only
Mode B — fails on the first with the Decompress error and on the second
with the Encoding error. -/
theorem mode_a_never_runs_materializer (gunzip : List Nat → Except ErrKind (List Nat))
    (hgz : gunzip [31, 139, 8] = Except.error ErrKind.decompress) :
    hashRecords [Except.ok ⟨0, 0, [31, 139, 8]⟩, Except.ok ⟨1, 1, [255]⟩] [] =
      Except.ok ["0 → 0: baa89858c7e5453927353ba63c61b94c2e9d38c28b0a0311bfa7bde396181",
        "1 → 1: a810ae6aa1940d0b663bb31cd466142ebbdbd5187131b92d93818987832eb89"] ∧
    expand_document gunzip [31, 139, 8] = Except.error ErrKind.decompress ∧
    expand_document gunzip [255] = Except.error ErrKind.encoding := by
  refine ⟨rfl, ?_, rfl⟩
  have hexp : expand_document gunzip [31, 139, 8] =
      match gunzip [31, 139, 8] with
      | Except.error e => Except.error e
      | Except.ok doc => string_from_utf8 doc := rfl
  rw [hexp, hgz]

/-- Witness for C10, instantiated with the always-failing decompressor. -/
theorem mode_a_never_runs_materializer_witness :
    hashRecords [Except.ok ⟨0, 0, [31, 139, 8]⟩, Except.ok ⟨1, 1, [255]⟩] [] =
      Except.ok ["0 → 0: baa89858c7e5453927353ba63c61b94c2e9d38c28b0a0311bfa7bde396181",
        "1 → 1: a810ae6aa1940d0b663bb31cd466142ebbdbd5187131b92d93818987832eb89"] ∧
    expand_document gunzipFail [31, 139, 8] = Except.error ErrKind.decompress ∧
    expand_document gunzipFail [255] = Except.error ErrKind.encoding :=
  mode_a_never_runs_materializer gunzipFail rfl

end SvgDump
